import Mathlib

/-!
Verification of `create_charts.py`: a straight-line script that renders two
hardcoded benchmark tables as log-log line charts and saves them as PNG files.

The script is embedded shallowly: the two in-memory tables become Lean
structures, and the sequence of pyplot/seaborn calls (lines 27-64 of the
source) becomes a list of commands executed against an explicit pyplot-like
state (open figures, current figure, per-figure command log, files written,
lines printed).  The only external input the script touches is whether a
`savefig` target is writable; that is modelled as an oracle `World`.  A
failing save raises an unhandled exception, which the executor models by
stopping and marking the run as failed, exactly as CPython would.
-/

/-- `random_data` (source lines 10-13): keys `"N"` and `"Time/Op (ns)"`. -/
structure RandomData where
  N : List Nat
  timeOp : List Nat
  deriving DecidableEq, Repr

/-- `grid_data` (source lines 15-19): keys `"Segments"`, `"Intersections"`
and `"Time/Op (ns)"`. -/
structure GridData where
  Segments : List Nat
  Intersections : List Nat
  timeOp : List Nat
  deriving DecidableEq, Repr

def random_data : RandomData :=
  { N := [10, 100, 1000, 10000]
    timeOp := [4372, 115627, 1851251, 29025479] }

def grid_data : GridData :=
  { Segments := [20, 100, 200, 400]
    Intersections := [100, 2500, 10000, 40000]
    timeOp := [55818, 1604035, 7506986, 31361110] }

/-- One pyplot/seaborn call of the script.  `close` models `plt.close`,
which the source never calls; it is included so that "releasing a figure"
is expressible in the model. -/
inductive Cmd where
  | figure (w h : Nat)
  | lineplot (x y : List Nat) (marker : String) (markersize : Nat)
  | setScale (xscale yscale : String)
  | title (s : String)
  | xlabel (s : String)
  | ylabel (s : String)
  | grid (b : Bool) (which ls : String)
  | savefig (path : String) (dpi : Nat) (tight : Bool)
  | printLine (s : String)
  | close (fig : Nat)
  deriving DecidableEq, Repr

/-- The script body, lines 27-64 of `create_charts.py`, in source order. -/
def script : List Cmd :=
  [ Cmd.figure 10 6,
    Cmd.lineplot random_data.N random_data.timeOp "o" 8,
    Cmd.setScale "log" "log",
    Cmd.title "Performance Scaling with Number of Segments (Random Data)",
    Cmd.xlabel "Number of Segments (n)",
    Cmd.ylabel "Time per Operation (ns, log scale)",
    Cmd.grid true "both" "--",
    Cmd.savefig "benchmark_random.png" 300 true,
    Cmd.printLine "Saved benchmark_random.png",
    Cmd.figure 10 6,
    Cmd.lineplot grid_data.Intersections grid_data.timeOp "o" 8,
    Cmd.setScale "log" "log",
    Cmd.title "Performance Scaling with Number of Intersections (Grid Data)",
    Cmd.xlabel "Number of Intersections (k)",
    Cmd.ylabel "Time per Operation (ns, log scale)",
    Cmd.grid true "both" "--",
    Cmd.savefig "benchmark_grid.png" 300 true,
    Cmd.printLine "Saved benchmark_grid.png" ]

/-- The script's only external dependency: whether writing a given path
succeeds.  The script reads no arguments, environment variables or files. -/
structure World where
  saveOk : String → Bool

/-- Pyplot-style interpreter state plus the observable effects of a run. -/
structure PyState where
  nextFig : Nat
  curFig : Option Nat
  openFigs : List Nat
  figCmds : List (Nat × Cmd)
  written : List String
  printed : List String
  fs : List String
  exitOk : Bool
  deriving Repr

/-- Overwriting file write: a path already present stays a single entry. -/
def insertFile (p : String) (fs : List String) : List String :=
  if p ∈ fs then fs else fs ++ [p]

/-- Execute one call.  `none` means an unhandled exception was raised
(the only failing call in this script is `savefig` on an unwritable path). -/
def step (w : World) (s : PyState) (c : Cmd) : Option PyState :=
  match c with
  | Cmd.figure _ _ =>
      some { s with nextFig := s.nextFig + 1
                    curFig := some s.nextFig
                    openFigs := s.openFigs ++ [s.nextFig]
                    figCmds := s.figCmds ++ [(s.nextFig, c)] }
  | Cmd.savefig p _ _ =>
      if w.saveOk p then
        some { s with written := s.written ++ [p]
                      fs := insertFile p s.fs
                      figCmds := s.figCmds ++ [(s.curFig.getD 0, c)] }
      else
        none
  | Cmd.printLine str =>
      some { s with printed := s.printed ++ [str] }
  | Cmd.close n =>
      some { s with openFigs := s.openFigs.filter (· ≠ n) }
  | _ =>
      some { s with figCmds := s.figCmds ++ [(s.curFig.getD 0, c)] }

/-- Run a command sequence; an exception stops the run with `exitOk = false`
(the script has no `try`/`except`, so nothing after a failing call runs). -/
def runCmds (w : World) : List Cmd → PyState → PyState
  | [], s => s
  | c :: cs, s =>
      match step w s c with
      | some s2 => runCmds w cs s2
      | none => { s with exitOk := false }

/-- Pyplot numbers figures from 1; a run starts with no open figure and the
given filesystem contents. -/
def initState (fs0 : List String) : PyState :=
  { nextFig := 1, curFig := none, openFigs := [], figCmds := []
    written := [], printed := [], fs := fs0, exitOk := true }

/-- Run the whole script once. -/
def runScript (w : World) (fs0 : List String) : PyState :=
  runCmds w script (initState fs0)

/-- A sequence is strictly increasing: each element is less than the next. -/
def strictIncr : List Nat → Prop
  | [] => True
  | [_] => True
  | a :: b :: l => a < b ∧ strictIncr (b :: l)

instance instDecStrictIncr : (l : List Nat) → Decidable (strictIncr l)
  | [] => isTrue trivial
  | [_] => isTrue trivial
  | a :: b :: l =>
      have : Decidable (strictIncr (b :: l)) := instDecStrictIncr (b :: l)
      inferInstanceAs (Decidable (a < b ∧ strictIncr (b :: l)))

/-- The drawing calls of chart 1 (lines 27-39), all issued on figure 1. -/
def draw1 : List (Nat × Cmd) :=
  [ (1, Cmd.figure 10 6),
    (1, Cmd.lineplot random_data.N random_data.timeOp "o" 8),
    (1, Cmd.setScale "log" "log"),
    (1, Cmd.title "Performance Scaling with Number of Segments (Random Data)"),
    (1, Cmd.xlabel "Number of Segments (n)"),
    (1, Cmd.ylabel "Time per Operation (ns, log scale)"),
    (1, Cmd.grid true "both" "--") ]

/-- The drawing calls of chart 2 (lines 48-60), all issued on figure 2. -/
def draw2 : List (Nat × Cmd) :=
  [ (2, Cmd.figure 10 6),
    (2, Cmd.lineplot grid_data.Intersections grid_data.timeOp "o" 8),
    (2, Cmd.setScale "log" "log"),
    (2, Cmd.title "Performance Scaling with Number of Intersections (Grid Data)"),
    (2, Cmd.xlabel "Number of Intersections (k)"),
    (2, Cmd.ylabel "Time per Operation (ns, log scale)"),
    (2, Cmd.grid true "both" "--") ]

/-- The tagged command log of a run in which both saves succeed. -/
def figCmdsBoth : List (Nat × Cmd) :=
  draw1 ++ [(1, Cmd.savefig "benchmark_random.png" 300 true)]
        ++ draw2 ++ [(2, Cmd.savefig "benchmark_grid.png" 300 true)]

/-- The tagged command log of a run whose second save raises. -/
def figCmdsFirst : List (Nat × Cmd) :=
  draw1 ++ [(1, Cmd.savefig "benchmark_random.png" 300 true)] ++ draw2

/-- Final state when both `savefig` calls succeed. -/
def stateBoth (fs0 : List String) : PyState :=
  { nextFig := 3, curFig := some 2, openFigs := [1, 2]
    figCmds := figCmdsBoth
    written := ["benchmark_random.png", "benchmark_grid.png"]
    printed := ["Saved benchmark_random.png", "Saved benchmark_grid.png"]
    fs := insertFile "benchmark_grid.png" (insertFile "benchmark_random.png" fs0)
    exitOk := true }

/-- Final state when the first save succeeds and the second raises. -/
def stateFirst (fs0 : List String) : PyState :=
  { nextFig := 3, curFig := some 2, openFigs := [1, 2]
    figCmds := figCmdsFirst
    written := ["benchmark_random.png"]
    printed := ["Saved benchmark_random.png"]
    fs := insertFile "benchmark_random.png" fs0
    exitOk := false }

/-- Final state when already the first save raises. -/
def stateNone (fs0 : List String) : PyState :=
  { nextFig := 2, curFig := some 1, openFigs := [1]
    figCmds := draw1
    written := [], printed := [], fs := fs0
    exitOk := false }

/-- Complete case analysis of a run: the only external dependence of the
script is the success of its two `savefig` calls. -/
theorem runScript_eq (w : World) (fs0 : List String) :
    runScript w fs0 =
      if w.saveOk "benchmark_random.png" then
        if w.saveOk "benchmark_grid.png" then stateBoth fs0 else stateFirst fs0
      else stateNone fs0 := by
  cases h1 : w.saveOk "benchmark_random.png" <;>
    cases h2 : w.saveOk "benchmark_grid.png" <;>
      simp [runScript, runCmds, step, script, initState, h1, h2,
        stateBoth, stateFirst, stateNone, draw1, draw2, figCmdsBoth, figCmdsFirst]

/-- A successful run (exit status 0) is exactly the two-save run. -/
theorem runScript_success (w : World) (fs0 : List String)
    (h : (runScript w fs0).exitOk = true) : runScript w fs0 = stateBoth fs0 := by
  rw [runScript_eq] at h ⊢
  cases h1 : w.saveOk "benchmark_random.png" <;>
    cases h2 : w.saveOk "benchmark_grid.png" <;>
      simp [h1, h2, stateBoth, stateFirst, stateNone] at h ⊢

/-- Closed form of a run in which both saves succeed. -/
theorem runScript_both (w : World) (fs0 : List String)
    (h1 : w.saveOk "benchmark_random.png" = true)
    (h2 : w.saveOk "benchmark_grid.png" = true) :
    runScript w fs0 = stateBoth fs0 := by
  rw [runScript_eq, h1, h2]; exact rfl

/-- Closed form of a run whose second save raises. -/
theorem runScript_first (w : World) (fs0 : List String)
    (h1 : w.saveOk "benchmark_random.png" = true)
    (h2 : w.saveOk "benchmark_grid.png" = false) :
    runScript w fs0 = stateFirst fs0 := by
  rw [runScript_eq, h1, h2]; exact rfl

/-- Closed form of a run whose first save raises. -/
theorem runScript_none (w : World) (fs0 : List String)
    (h1 : w.saveOk "benchmark_random.png" = false) :
    runScript w fs0 = stateNone fs0 := by
  rw [runScript_eq, h1]; exact rfl

theorem stateBoth_figCmds (fs0 : List String) :
    (stateBoth fs0).figCmds = figCmdsBoth := rfl

theorem stateBoth_written (fs0 : List String) :
    (stateBoth fs0).written = ["benchmark_random.png", "benchmark_grid.png"] := rfl

theorem stateBoth_printed (fs0 : List String) :
    (stateBoth fs0).printed
      = ["Saved benchmark_random.png", "Saved benchmark_grid.png"] := rfl

theorem stateFirst_figCmds (fs0 : List String) :
    (stateFirst fs0).figCmds = figCmdsFirst := rfl

theorem stateFirst_written (fs0 : List String) :
    (stateFirst fs0).written = ["benchmark_random.png"] := rfl

theorem stateFirst_printed (fs0 : List String) :
    (stateFirst fs0).printed = ["Saved benchmark_random.png"] := rfl

theorem mem_insertFile_self (p : String) (fs : List String) :
    p ∈ insertFile p fs := by
  unfold insertFile; split <;> simp_all

theorem mem_insertFile (p q : String) (fs : List String) (h : q ∈ fs) :
    q ∈ insertFile p fs := by
  unfold insertFile; split <;> simp_all

theorem insertFile_of_mem (p : String) (fs : List String) (h : p ∈ fs) :
    insertFile p fs = fs := by
  unfold insertFile; simp [h]

/-- A world in which every path is writable. -/
def allOk : World := ⟨fun _ => true⟩

/-- A world in which no path is writable. -/
def noWrite : World := ⟨fun _ => false⟩

/-- C1: For each of the two hardcoded datasets, the independent-variable
sequence (`N` for random, `Intersections` for grid) is strictly increasing,
and every value in every column of both datasets is strictly positive. -/
theorem C1_dataset_invariants :
    strictIncr random_data.N ∧ strictIncr grid_data.Intersections ∧
    random_data.N.all (fun x => 0 < x) = true ∧
    random_data.timeOp.all (fun x => 0 < x) = true ∧
    grid_data.Segments.all (fun x => 0 < x) = true ∧
    grid_data.Intersections.all (fun x => 0 < x) = true ∧
    grid_data.timeOp.all (fun x => 0 < x) = true := by
  decide

/-- C2: Whenever `benchmark_random.png` is writable, the run plots the random
dataset {N: [10,100,1000,10000], Time/Op (ns): [4372,115627,1851251,29025479]}
as a line chart on figure 1, sets both its axes to log scale, saves it to
`benchmark_random.png` at 300 DPI with a tight bounding box, and prints the
line `Saved benchmark_random.png`. -/
theorem C2_random_render (w : World) (fs0 : List String)
    (h : w.saveOk "benchmark_random.png" = true) :
    (1, Cmd.lineplot [10, 100, 1000, 10000] [4372, 115627, 1851251, 29025479] "o" 8)
        ∈ (runScript w fs0).figCmds ∧
    (1, Cmd.setScale "log" "log") ∈ (runScript w fs0).figCmds ∧
    (1, Cmd.savefig "benchmark_random.png" 300 true) ∈ (runScript w fs0).figCmds ∧
    "benchmark_random.png" ∈ (runScript w fs0).written ∧
    "Saved benchmark_random.png" ∈ (runScript w fs0).printed := by
  cases h2 : w.saveOk "benchmark_grid.png"
  · rw [runScript_first w fs0 h h2, stateFirst_figCmds, stateFirst_written,
      stateFirst_printed]
    decide
  · rw [runScript_both w fs0 h h2, stateBoth_figCmds, stateBoth_written,
      stateBoth_printed]
    decide

theorem C2_witness :
    allOk.saveOk "benchmark_random.png" = true ∧
    ((1, Cmd.lineplot [10, 100, 1000, 10000] [4372, 115627, 1851251, 29025479] "o" 8)
        ∈ (runScript allOk []).figCmds ∧
     (1, Cmd.setScale "log" "log") ∈ (runScript allOk []).figCmds ∧
     (1, Cmd.savefig "benchmark_random.png" 300 true) ∈ (runScript allOk []).figCmds ∧
     "benchmark_random.png" ∈ (runScript allOk []).written ∧
     "Saved benchmark_random.png" ∈ (runScript allOk []).printed) :=
  ⟨rfl, C2_random_render allOk [] rfl⟩

/-- C3: Whenever both output paths are writable, the run plots the grid
dataset with Intersections [100,2500,10000,40000] on the x-axis and the
matching Time/Op values on the y-axis as a line chart on figure 2, sets both
its axes to log scale, saves it to `benchmark_grid.png` at 300 DPI with a
tight bounding box, and prints the line `Saved benchmark_grid.png`. -/
theorem C3_grid_render (w : World) (fs0 : List String)
    (h1 : w.saveOk "benchmark_random.png" = true)
    (h2 : w.saveOk "benchmark_grid.png" = true) :
    (2, Cmd.lineplot [100, 2500, 10000, 40000] [55818, 1604035, 7506986, 31361110] "o" 8)
        ∈ (runScript w fs0).figCmds ∧
    (2, Cmd.setScale "log" "log") ∈ (runScript w fs0).figCmds ∧
    (2, Cmd.savefig "benchmark_grid.png" 300 true) ∈ (runScript w fs0).figCmds ∧
    "benchmark_grid.png" ∈ (runScript w fs0).written ∧
    "Saved benchmark_grid.png" ∈ (runScript w fs0).printed := by
  rw [runScript_both w fs0 h1 h2, stateBoth_figCmds, stateBoth_written,
    stateBoth_printed]
  decide

theorem C3_witness :
    allOk.saveOk "benchmark_random.png" = true ∧
    allOk.saveOk "benchmark_grid.png" = true ∧
    ((2, Cmd.lineplot [100, 2500, 10000, 40000] [55818, 1604035, 7506986, 31361110] "o" 8)
        ∈ (runScript allOk []).figCmds ∧
     (2, Cmd.setScale "log" "log") ∈ (runScript allOk []).figCmds ∧
     (2, Cmd.savefig "benchmark_grid.png" 300 true) ∈ (runScript allOk []).figCmds ∧
     "benchmark_grid.png" ∈ (runScript allOk []).written ∧
     "Saved benchmark_grid.png" ∈ (runScript allOk []).printed) :=
  ⟨rfl, rfl, C3_grid_render allOk [] rfl rfl⟩

/-- C5 counterexample: after a fully successful run, figure 1 is still open
(the open-figure list is [1, 2]), and the script contains no close/release
call at all — so the first render's figure is NOT released after saving,
and in particular not before the second render begins. -/
theorem C5_counterexample :
    (runScript allOk []).exitOk = true ∧
    (runScript allOk []).openFigs = [1, 2] ∧
    script.all (fun c =>
      match c with
      | Cmd.close _ => false
      | _ => true) = true := by
  decide

/-- C5 (amended): Each render step creates its own fresh figure (figure 1,
then figure 2) and every drawing and saving command targets only its own
render's figure, so no chart state from the first render is shared with or
can interfere with the second; however, the figures are never released —
both remain open at the end of the run. -/
theorem C5_fresh_figure_per_render (w : World) (fs0 : List String)
    (h1 : w.saveOk "benchmark_random.png" = true)
    (h2 : w.saveOk "benchmark_grid.png" = true) :
    (runScript w fs0).figCmds
      = draw1 ++ [(1, Cmd.savefig "benchmark_random.png" 300 true)]
          ++ draw2 ++ [(2, Cmd.savefig "benchmark_grid.png" 300 true)] ∧
    (runScript w fs0).openFigs = [1, 2] := by
  rw [runScript_both w fs0 h1 h2]
  exact ⟨rfl, rfl⟩

theorem C5_witness :
    allOk.saveOk "benchmark_random.png" = true ∧
    allOk.saveOk "benchmark_grid.png" = true ∧
    ((runScript allOk []).figCmds
      = draw1 ++ [(1, Cmd.savefig "benchmark_random.png" 300 true)]
          ++ draw2 ++ [(2, Cmd.savefig "benchmark_grid.png" 300 true)] ∧
     (runScript allOk []).openFigs = [1, 2]) :=
  ⟨rfl, rfl, C5_fresh_figure_per_render allOk [] rfl rfl⟩

/-- C6: In the grid chart, the x-axis variable is the intersection count;
the `Segments` column is present in `grid_data` but is neither the x nor
the y data of any lineplot in the script. -/
theorem C6_segments_not_plotted :
    Cmd.lineplot grid_data.Intersections grid_data.timeOp "o" 8 ∈ script ∧
    grid_data.Segments = [20, 100, 200, 400] ∧
    script.all (fun c =>
      match c with
      | Cmd.lineplot x y _ _ =>
          !(x == grid_data.Segments) && !(y == grid_data.Segments)
      | _ => true) = true := by
  decide

/-- C7: With both output paths writable, running the script twice in
succession succeeds both times, writes the same two files each time, and
leaves the filesystem unchanged after the second run (the files are
overwritten, nothing accumulates, and only the two expected paths are
added to the initial filesystem). -/
theorem C7_idempotent_runs (w : World) (fs0 : List String)
    (h1 : w.saveOk "benchmark_random.png" = true)
    (h2 : w.saveOk "benchmark_grid.png" = true) :
    (runScript w fs0).exitOk = true ∧
    (runScript w (runScript w fs0).fs).exitOk = true ∧
    (runScript w fs0).written = ["benchmark_random.png", "benchmark_grid.png"] ∧
    (runScript w (runScript w fs0).fs).written = (runScript w fs0).written ∧
    (runScript w (runScript w fs0).fs).fs = (runScript w fs0).fs ∧
    (runScript w fs0).fs
      = insertFile "benchmark_grid.png" (insertFile "benchmark_random.png" fs0) := by
  have e : ∀ g : List String, runScript w g = stateBoth g := fun g =>
    runScript_both w g h1 h2
  rw [e fs0, e (stateBoth fs0).fs]
  have hr : "benchmark_random.png"
      ∈ insertFile "benchmark_grid.png" (insertFile "benchmark_random.png" fs0) :=
    mem_insertFile _ _ _ (mem_insertFile_self _ _)
  have hg : "benchmark_grid.png"
      ∈ insertFile "benchmark_grid.png" (insertFile "benchmark_random.png" fs0) :=
    mem_insertFile_self _ _
  refine ⟨rfl, rfl, rfl, rfl, ?_, rfl⟩
  show insertFile "benchmark_grid.png"
        (insertFile "benchmark_random.png" (stateBoth fs0).fs) = (stateBoth fs0).fs
  rw [show (stateBoth fs0).fs
        = insertFile "benchmark_grid.png" (insertFile "benchmark_random.png" fs0) from rfl]
  rw [insertFile_of_mem _ _ hr, insertFile_of_mem _ _ hg]

theorem C7_witness :
    allOk.saveOk "benchmark_random.png" = true ∧
    allOk.saveOk "benchmark_grid.png" = true ∧
    ((runScript allOk []).exitOk = true ∧
     (runScript allOk (runScript allOk []).fs).exitOk = true ∧
     (runScript allOk []).written = ["benchmark_random.png", "benchmark_grid.png"] ∧
     (runScript allOk (runScript allOk []).fs).written = (runScript allOk []).written ∧
     (runScript allOk (runScript allOk []).fs).fs = (runScript allOk []).fs ∧
     (runScript allOk []).fs
       = insertFile "benchmark_grid.png" (insertFile "benchmark_random.png" [])) :=
  ⟨rfl, rfl, C7_idempotent_runs allOk [] rfl rfl⟩

/-- C8: The script reads no input beyond the writability of its two output
paths, so any two successful runs — whatever the worlds and initial
filesystems — print the same two lines in the same order, write the same
two file paths, and issue the identical sequence of plotting commands
(hence plot exactly the same data points). -/
theorem C8_deterministic (w1 w2 : World) (fs1 fs2 : List String)
    (h1 : (runScript w1 fs1).exitOk = true)
    (h2 : (runScript w2 fs2).exitOk = true) :
    (runScript w1 fs1).printed
      = ["Saved benchmark_random.png", "Saved benchmark_grid.png"] ∧
    (runScript w2 fs2).printed = (runScript w1 fs1).printed ∧
    (runScript w1 fs1).written = ["benchmark_random.png", "benchmark_grid.png"] ∧
    (runScript w2 fs2).written = (runScript w1 fs1).written ∧
    (runScript w2 fs2).figCmds = (runScript w1 fs1).figCmds := by
  rw [runScript_success w1 fs1 h1, runScript_success w2 fs2 h2]
  exact ⟨rfl, rfl, rfl, rfl, rfl⟩

theorem C8_witness :
    (runScript allOk []).exitOk = true ∧
    (runScript allOk ["x"]).exitOk = true ∧
    ((runScript allOk []).printed
       = ["Saved benchmark_random.png", "Saved benchmark_grid.png"] ∧
     (runScript allOk ["x"]).printed = (runScript allOk []).printed ∧
     (runScript allOk []).written = ["benchmark_random.png", "benchmark_grid.png"] ∧
     (runScript allOk ["x"]).written = (runScript allOk []).written ∧
     (runScript allOk ["x"]).figCmds = (runScript allOk []).figCmds) :=
  ⟨by decide, by decide, C8_deterministic allOk allOk [] ["x"] (by decide) (by decide)⟩

/-- C9: If the first save raises (its path is unwritable), the run stops
there with a failing exit: nothing is written or printed at all — in
particular `benchmark_grid.png` is not written and
`Saved benchmark_grid.png` is not printed — and figure 2 is never created,
so the second render never runs. -/
theorem C9_first_failure_aborts (w : World) (fs0 : List String)
    (h : w.saveOk "benchmark_random.png" = false) :
    (runScript w fs0).exitOk = false ∧
    "benchmark_grid.png" ∉ (runScript w fs0).written ∧
    "Saved benchmark_grid.png" ∉ (runScript w fs0).printed ∧
    (runScript w fs0).written = [] ∧
    (runScript w fs0).printed = [] ∧
    (runScript w fs0).openFigs = [1] ∧
    (runScript w fs0).figCmds = draw1 ∧
    (runScript w fs0).fs = fs0 := by
  rw [runScript_eq, h]
  simp [stateNone]

theorem C9_witness :
    noWrite.saveOk "benchmark_random.png" = false ∧
    ((runScript noWrite []).exitOk = false ∧
     "benchmark_grid.png" ∉ (runScript noWrite []).written ∧
     "Saved benchmark_grid.png" ∉ (runScript noWrite []).printed ∧
     (runScript noWrite []).written = [] ∧
     (runScript noWrite []).printed = [] ∧
     (runScript noWrite []).openFigs = [1] ∧
     (runScript noWrite []).figCmds = draw1 ∧
     (runScript noWrite []).fs = []) :=
  ⟨rfl, C9_first_failure_aborts noWrite [] rfl⟩

/-- C10: In `grid_data`, every sample satisfies
Intersections = Segments^2 / 4 exactly: the pairs are
(20,100), (100,2500), (200,10000), (400,40000), and for each pair
4 * Intersections = Segments * Segments holds with no remainder. -/
theorem C10_intersections_relation :
    grid_data.Segments.zip grid_data.Intersections
      = [(20, 100), (100, 2500), (200, 10000), (400, 40000)] ∧
    (grid_data.Segments.zip grid_data.Intersections).all
      (fun p => p.2 * 4 == p.1 * p.1 && p.1 * p.1 / 4 == p.2
                  && p.1 * p.1 % 4 == 0) = true := by
  decide
